import Mathlib

/-!
Shallow embedding of the lbuild configuration core (src/lbuild/exception.py,
src/lbuild/module.py, src/lbuild/repository.py).

Python strings are modelled as lists of characters; `str.split(":")` is
`splitColon`; Python dicts are association lists with unique keys, looked up
by first match; raising an exception is modelled by returning the error
(`Except` for read-only lookups, `state × Option Err` for mutators, so that
the state at the moment the exception is raised stays observable).
-/

namespace Lbuild

/-- A Python string: a list of characters. -/
abbrev Str := List Char

/-- Helper for `splitColon`: prepend a character to the first segment. -/
def consHead (c : Char) : List Str → List Str
  | [] => [[c]]
  | s :: rest => (c :: s) :: rest

/-- Python `s.split(":")`: always yields at least one (possibly empty) segment;
a colon ends the current segment and starts a new one. -/
def splitColon : Str → List Str
  | [] => [[]]
  | c :: cs => if c = ':' then [] :: splitColon cs else consHead c (splitColon cs)

/-- Python dict lookup `d[k]` as an `Option`: first entry with the key. -/
def dget {V : Type} (d : List (Str × V)) (k : Str) : Option V :=
  match d with
  | [] => none
  | p :: rest => if p.1 = k then some p.2 else dget rest k

/-- Python `k in d` for a dict. -/
def hasKey {V : Type} (d : List (Str × V)) (k : Str) : Bool :=
  match d with
  | [] => false
  | p :: rest => p.1 = k || hasKey rest k

/-- Python `d[k] = v`: replace the entry in place if the key exists,
otherwise append at the end (dict insertion order). -/
def dinsert {V : Type} (d : List (Str × V)) (k : Str) (v : V) : List (Str × V) :=
  match d with
  | [] => [(k, v)]
  | p :: rest => if p.1 = k then (k, v) :: rest else p :: dinsert rest k v

/-- Python `d1.update(d2)`: insert every entry of `d2` into `d1`, overwriting
values of shared keys. -/
def dupdate {V : Type} (d1 d2 : List (Str × V)) : List (Str × V) :=
  d2.foldl (fun acc p => dinsert acc p.1 p.2) d1

/-- A well-formed Python dict has no repeated key. -/
def nodupKeys {V : Type} : List (Str × V) → Bool
  | [] => true
  | p :: rest => !(hasKey rest p.1) && nodupKeys rest

/-- Does `hay` start with `needle`? -/
def beginsWith : Str → Str → Bool
  | [], _ => true
  | _ :: _, [] => false
  | a :: as, b :: bs => a = b && beginsWith as bs

/-- Does `hay` contain `needle` as a contiguous substring? -/
def containsStr (hay needle : Str) : Bool :=
  match hay with
  | [] => needle.isEmpty
  | _ :: t => beginsWith needle hay || containsStr t needle

/-- Message of `BlobException("Option name '%s' must contain exactly one colon "
"to separate repository and option name.")` in repository.py — note the source
never applies `%` to this string, so the literal `%s` placeholder stays. -/
def repoColonMsg : Str :=
  ("Option name '%s' must contain exactly one colon to separate repository and option name.").data

/-- Message of `BlobException("Unknown option name '%s'" % key)`. -/
def unknownOptionMsg (key : Str) : Str :=
  ("Unknown option name '").data ++ key ++ ("'").data

/-- Message of `BlobException("Option name '%s' is already defined" % name)`. -/
def duplicateOptionMsg (name : Str) : Str :=
  ("Option name '").data ++ name ++ ("' is already defined").data

/-- Message of the `BlobException` raised by `verify_module_name`. -/
def malformedModuleNameMsg (name : Str) : Str :=
  ("Modulename '").data ++ name ++
    ("' must contain exactly one ':' as separator between repository and module name").data

/-- Message built by `OptionFormatException.__init__` (exception.py). -/
def optionFormatMsg (name : Str) : Str :=
  ("Invalid option format for '").data ++ name ++
    ("'. Option must contain one (repository option) or two (module option) colons.").data

/-- The two exception kinds of exception.py: `BlobException` (generic, carries
its message) and its specialization `OptionFormatException` (carries the
offending option name; its message is derived from it). -/
inductive Err where
  | blob (msg : Str)
  | optionFormat (name : Str)
deriving DecidableEq

/-- The message text an exception carries (`str(e)` in Python). -/
def Err.message : Err → Str
  | .blob msg => msg
  | .optionFormat name => optionFormatMsg name

/-- Discriminator: is this the dedicated `OptionFormatException`? -/
def Err.isFormat : Err → Bool
  | .blob _ => false
  | .optionFormat _ => true

/-- Kind tag distinguishing `Option` / `BooleanOption` / `NumericOption`. -/
inductive OptKind where
  | generic
  | boolean
  | numeric
deriving DecidableEq

/-- Modelled from the spec: the external `Option` type of option.py (not under
src/). Constructed with `(name, description, default)`; exposes a mutable
`value` that defaults to `default`; the boolean/numeric subtypes differ only in
an opaque coercion strategy, modelled as the `kind` tag. -/
structure LbOption (V : Type) where
  name : Str
  description : Str
  default : V
  value : V
  kind : OptKind
deriving DecidableEq

/-- Construct a fresh option of the given kind (value starts at the default). -/
def LbOption.make {V : Type} (kind : OptKind) (name description : Str) (default : V) :
    LbOption V :=
  ⟨name, description, default, default, kind⟩

/-- repository.py `Repository`. The `modules` map (filename → Module) is
omitted: it is populated through filesystem discovery, outside this embedding. -/
structure Repository (V : Type) where
  path : Str
  name : Str
  options : List (Str × LbOption V)

/-- repository.py `Repository.set_name`. -/
def Repository.set_name {V : Type} (r : Repository V) (name : Str) : Repository V :=
  { r with name := name }

/-- repository.py `Repository._check_for_duplicates`: the raised exception, if any. -/
def Repository.checkForDuplicates {V : Type} (r : Repository V) (name : Str) : Option Err :=
  if hasKey r.options name then some (.blob (duplicateOptionMsg name)) else none

/-- repository.py `Repository.add_option`. -/
def Repository.add_option {V : Type} (r : Repository V) (name description : Str)
    (default : V) : Repository V × Option Err :=
  match Repository.checkForDuplicates r name with
  | some e => (r, some e)
  | none =>
    ({ r with options := dinsert r.options name (LbOption.make .generic name description default) },
     none)

/-- repository.py `Repository.add_boolean_option`. -/
def Repository.add_boolean_option {V : Type} (r : Repository V) (name description : Str)
    (default : V) : Repository V × Option Err :=
  match Repository.checkForDuplicates r name with
  | some e => (r, some e)
  | none =>
    ({ r with options := dinsert r.options name (LbOption.make .boolean name description default) },
     none)

/-- repository.py `Repository.add_numeric_option`. -/
def Repository.add_numeric_option {V : Type} (r : Repository V) (name description : Str)
    (default : V) : Repository V × Option Err :=
  match Repository.checkForDuplicates r name with
  | some e => (r, some e)
  | none =>
    ({ r with options := dinsert r.options name (LbOption.make .numeric name description default) },
     none)

/-- The key substitution of both resolvers' 2-segment path: an empty repository
segment is replaced by the resolver's own repository name (`"%s:%s"` re-join),
otherwise the original key is used unchanged. -/
def repoQualify (selfName repo opt key : Str) : Str :=
  if repo = [] then selfName ++ ':' :: opt else key

/-- repository.py `OptionNameResolver`: resolver for repository options. -/
structure Repository.OptionNameResolver (V : Type) where
  repository : Repository V
  options : List (Str × LbOption V)

/-- repository.py `OptionNameResolver.__getitem__`. -/
def Repository.OptionNameResolver.getItem {V : Type}
    (r : Repository.OptionNameResolver V) (key : Str) : Except Err V :=
  match splitColon key with
  | [repo, opt] =>
    let key := repoQualify r.repository.name repo opt key
    match dget r.options key with
    | some o => .ok o.value
    | none => .error (.blob (unknownOptionMsg key))
  | _ => .error (.blob repoColonMsg)

/-- repository.py `OptionNameResolver.__repr__` (the displayed map). -/
def Repository.OptionNameResolver.describe {V : Type}
    (r : Repository.OptionNameResolver V) : List (Str × LbOption V) :=
  r.options

/-- repository.py `OptionNameResolver.__len__`. -/
def Repository.OptionNameResolver.size {V : Type}
    (r : Repository.OptionNameResolver V) : Nat :=
  r.options.length

/-- module.py `verify_module_name`: the raised exception, if any. -/
def verify_module_name (modulename : Str) : Option Err :=
  if (splitColon modulename).length ≠ 2 then
    some (.blob (malformedModuleNameMsg modulename))
  else
    none

/-- module.py `Module`. The `functions` map is omitted (opaque implementations,
never read by this core's logic). -/
structure Module (V : Type) where
  repository : Repository V
  filename : Str
  path : Str
  name : Str
  full_name : Str
  description : Str
  dependencies : List Str
  options : List (Str × LbOption V)

/-- module.py `Module.set_name` (also derives `full_name`). -/
def Module.set_name {V : Type} (m : Module V) (name : Str) : Module V :=
  { m with name := name, full_name := m.repository.name ++ ':' :: name }

/-- module.py `Module.set_description`. -/
def Module.set_description {V : Type} (m : Module V) (description : Str) : Module V :=
  { m with description := description }

/-- module.py `Module._check_for_duplicates`: the raised exception, if any. -/
def Module.checkForDuplicates {V : Type} (m : Module V) (name : Str) : Option Err :=
  if hasKey m.options name then some (.blob (duplicateOptionMsg name)) else none

/-- module.py `Module.add_option`. -/
def Module.add_option {V : Type} (m : Module V) (name description : Str)
    (default : V) : Module V × Option Err :=
  match Module.checkForDuplicates m name with
  | some e => (m, some e)
  | none =>
    ({ m with options := dinsert m.options name (LbOption.make .generic name description default) },
     none)

/-- module.py `Module.add_boolean_option`. -/
def Module.add_boolean_option {V : Type} (m : Module V) (name description : Str)
    (default : V) : Module V × Option Err :=
  match Module.checkForDuplicates m name with
  | some e => (m, some e)
  | none =>
    ({ m with options := dinsert m.options name (LbOption.make .boolean name description default) },
     none)

/-- module.py `Module.add_numeric_option`. -/
def Module.add_numeric_option {V : Type} (m : Module V) (name description : Str)
    (default : V) : Module V × Option Err :=
  match Module.checkForDuplicates m name with
  | some e => (m, some e)
  | none =>
    ({ m with options := dinsert m.options name (LbOption.make .numeric name description default) },
     none)

/-- module.py `Module.depends`, applied to the already-listified argument
(`utils.listify` is external: a single name becomes a singleton list). Each
element is verified, then appended; on the first malformed element the
exception is raised with the elements before it already appended. -/
def Module.depends {V : Type} (m : Module V) (dependencies : List Str) :
    Module V × Option Err :=
  match dependencies with
  | [] => (m, none)
  | d :: rest =>
    match verify_module_name d with
    | some e => (m, some e)
    | none => Module.depends { m with dependencies := m.dependencies ++ [d] } rest

/-- The 3-segment key re-join of the module resolver: empty repository/module
segments are replaced by the resolver's own names (`"%s:%s:%s"`). -/
def modQualify (selfRepo selfMod repo moduleName opt : Str) : Str :=
  (if repo = [] then selfRepo else repo) ++ ':' ::
    ((if moduleName = [] then selfMod else moduleName) ++ ':' :: opt)

/-- module.py `OptionNameResolver`: resolver for module options. -/
structure Module.OptionNameResolver (V : Type) where
  repository : Repository V
  module : Module V
  repo_options : List (Str × LbOption V)
  module_options : List (Str × LbOption V)

/-- module.py `OptionNameResolver.__getitem__`. The `OptionFormatException` is
raised inside the `try` block but is not a `KeyError`, so it propagates. -/
def Module.OptionNameResolver.getItem {V : Type}
    (r : Module.OptionNameResolver V) (key : Str) : Except Err V :=
  match splitColon key with
  | [repo, opt] =>
    let key := repoQualify r.repository.name repo opt key
    match dget r.repo_options key with
    | some o => .ok o.value
    | none => .error (.blob (unknownOptionMsg key))
  | [repo, moduleName, opt] =>
    let key := modQualify r.repository.name r.module.name repo moduleName opt
    match dget r.module_options key with
    | some o => .ok o.value
    | none => .error (.blob (unknownOptionMsg key))
  | _ => .error (.optionFormat key)

/-- module.py `OptionNameResolver.__repr__`: copy the module map, then update
with the repository map. -/
def Module.OptionNameResolver.describe {V : Type}
    (r : Module.OptionNameResolver V) : List (Str × LbOption V) :=
  dupdate r.module_options r.repo_options

/-- module.py `OptionNameResolver.__len__`. -/
def Module.OptionNameResolver.size {V : Type}
    (r : Module.OptionNameResolver V) : Nat :=
  r.module_options.length + r.repo_options.length

/-- A concrete repository used to instantiate the theorems (values are `Nat`). -/
def sampleRepository : Repository Nat :=
  { path := ("/repo").data
    name := ("core").data
    options := [((("core:arch").data), LbOption.make .generic (("arch").data) [] 1)] }

/-- A concrete module belonging to `sampleRepository`. -/
def sampleModule : Module Nat :=
  { repository := sampleRepository
    filename := ("module.lb").data
    path := ("/repo/uart").data
    name := ("uart").data
    full_name := ("core:uart").data
    description := []
    dependencies := []
    options := [((("baudrate").data), LbOption.make .generic (("baudrate").data) [] 9600)] }

/-- A concrete repository-scoped resolver. -/
def sampleRepoResolver : Repository.OptionNameResolver Nat :=
  { repository := sampleRepository
    options := sampleRepository.options }

/-- A concrete module-scoped resolver. -/
def sampleModuleResolver : Module.OptionNameResolver Nat :=
  { repository := sampleRepository
    module := sampleModule
    repo_options := [((("core:arch").data), LbOption.make .generic (("arch").data) [] 1)]
    module_options :=
      [((("core:uart:baudrate").data), LbOption.make .generic (("baudrate").data) [] 9600)] }

/-- A module-scoped resolver whose repository map has 3 entries and whose
module map has 2 entries, with the key "a" occurring in both maps. -/
def mixedModuleResolver : Module.OptionNameResolver Nat :=
  { repository := sampleRepository
    module := sampleModule
    repo_options :=
      [((("a").data), LbOption.make .generic (("a").data) [] 1),
       ((("b").data), LbOption.make .generic (("b").data) [] 2),
       ((("c").data), LbOption.make .generic (("c").data) [] 3)]
    module_options :=
      [((("a").data), LbOption.make .generic (("a").data) [] 10),
       ((("d").data), LbOption.make .generic (("d").data) [] 11)] }

/-! ### Helper lemmas about the string and dictionary model -/

theorem splitColon_ne_nil (s : Str) : splitColon s ≠ [] := by
  induction s with
  | nil => simp [splitColon]
  | cons c cs ih =>
    simp only [splitColon]
    split
    · simp
    · cases h : splitColon cs with
      | nil => simp [consHead]
      | cons a rest => simp [consHead]

theorem splitColon_no_colon (s : Str) (h : ':' ∉ s) : splitColon s = [s] := by
  induction s with
  | nil => rfl
  | cons c cs ih =>
    simp only [List.mem_cons, not_or] at h
    rw [splitColon, if_neg (fun hc => h.1 hc.symm), ih h.2]
    rfl

theorem splitColon_append (a b : Str) (h : ':' ∉ a) :
    splitColon (a ++ ':' :: b) = a :: splitColon b := by
  induction a with
  | nil => simp [splitColon]
  | cons c cs ih =>
    simp only [List.mem_cons, not_or] at h
    rw [List.cons_append, splitColon, if_neg (fun hc => h.1 hc.symm), ih h.2]
    rfl

theorem length_consHead (c : Char) (l : List Str) (h : l ≠ []) :
    (consHead c l).length = l.length := by
  cases l with
  | nil => exact absurd rfl h
  | cons a rest => rfl

theorem length_splitColon (s : Str) : (splitColon s).length = s.count ':' + 1 := by
  induction s with
  | nil => rfl
  | cons c cs ih =>
    by_cases hc : c = ':'
    · subst hc
      rw [splitColon, if_pos rfl]
      simp [List.count_cons, ih]
    · have hcc : ¬ (':' = c) := fun h => hc h.symm
      rw [splitColon, if_neg hc, length_consHead c _ (splitColon_ne_nil cs), ih]
      simp [List.count_cons, hcc]

theorem dget_dinsert {V : Type} (d : List (Str × V)) (k k' : Str) (v : V) :
    dget (dinsert d k v) k' = if k' = k then some v else dget d k' := by
  induction d with
  | nil =>
    by_cases h : k' = k
    · subst h; simp [dinsert, dget]
    · have h2 : ¬ k = k' := fun hh => h hh.symm
      simp [dinsert, dget, h, h2]
  | cons p rest ih =>
    by_cases hp : p.1 = k
    · by_cases h : k' = k
      · subst h; simp [dinsert, dget, hp]
      · have h2 : ¬ k = k' := fun hh => h hh.symm
        simp [dinsert, dget, hp, h, h2]
    · by_cases hq : p.1 = k'
      · have : ¬ k' = k := fun h => hp (hq.trans h)
        simp [dinsert, dget, hp, hq, this]
      · simp [dinsert, dget, hp, hq, ih]

theorem hasKey_false_dget {V : Type} (d : List (Str × V)) (k : Str)
    (h : hasKey d k = false) : dget d k = none := by
  induction d with
  | nil => rfl
  | cons p rest ih =>
    simp only [hasKey, Bool.or_eq_false_iff, decide_eq_false_iff_not] at h
    simp [dget, h.1, ih h.2]

theorem dget_dupdate {V : Type} (d1 d2 : List (Str × V)) (k : Str)
    (h : nodupKeys d2 = true) :
    dget (dupdate d1 d2) k =
      (match dget d2 k with | some v => some v | none => dget d1 k) := by
  induction d2 generalizing d1 with
  | nil => rfl
  | cons p rest ih =>
    simp only [nodupKeys, Bool.and_eq_true, Bool.not_eq_true'] at h
    have step : dupdate d1 (p :: rest) = dupdate (dinsert d1 p.1 p.2) rest := rfl
    rw [step, ih _ h.2]
    by_cases hk : k = p.1
    · subst hk
      rw [hasKey_false_dget rest p.1 h.1]
      simp [dget, dget_dinsert]
    · have hp : ¬ p.1 = k := fun hh => hk hh.symm
      cases hrk : dget rest k <;> simp [dget, hp, hrk, dget_dinsert, hk]

theorem beginsWith_append (b c : Str) : beginsWith b (b ++ c) = true := by
  induction b with
  | nil => rfl
  | cons a as ih => simp [beginsWith, ih]

theorem containsStr_extend (a rest n : Str) (h : containsStr rest n = true) :
    containsStr (a ++ rest) n = true := by
  induction a with
  | nil => exact h
  | cons x t ih => simp [containsStr, ih]

theorem containsStr_middle (a b c : Str) : containsStr (a ++ (b ++ c)) b = true := by
  apply containsStr_extend
  cases b with
  | nil => cases c <;> simp [containsStr, beginsWith]
  | cons x xs =>
    have hb := beginsWith_append (x :: xs) c
    rw [List.cons_append] at hb
    simp [containsStr, hb]

theorem hasKey_dinsert {V : Type} (d : List (Str × V)) (k : Str) (v : V) :
    hasKey (dinsert d k v) k = true := by
  induction d with
  | nil => simp [dinsert, hasKey]
  | cons p rest ih =>
    by_cases hp : p.1 = k
    · simp [dinsert, hasKey, hp]
    · simp [dinsert, hasKey, hp, ih]

/-! ### Unfolding lemmas for the resolvers and `depends` -/

theorem repo_getItem_two {V : Type} (r : Repository.OptionNameResolver V)
    (key repo opt : Str) (h : splitColon key = [repo, opt]) :
    Repository.OptionNameResolver.getItem r key =
      (match dget r.options (repoQualify r.repository.name repo opt key) with
       | some o => .ok o.value
       | none => .error (.blob (unknownOptionMsg (repoQualify r.repository.name repo opt key)))) := by
  unfold Repository.OptionNameResolver.getItem
  rw [h]

theorem mod_getItem_two {V : Type} (r : Module.OptionNameResolver V)
    (key repo opt : Str) (h : splitColon key = [repo, opt]) :
    Module.OptionNameResolver.getItem r key =
      (match dget r.repo_options (repoQualify r.repository.name repo opt key) with
       | some o => .ok o.value
       | none => .error (.blob (unknownOptionMsg (repoQualify r.repository.name repo opt key)))) := by
  unfold Module.OptionNameResolver.getItem
  rw [h]

theorem mod_getItem_three {V : Type} (r : Module.OptionNameResolver V)
    (key repo moduleName opt : Str) (h : splitColon key = [repo, moduleName, opt]) :
    Module.OptionNameResolver.getItem r key =
      (match dget r.module_options
          (modQualify r.repository.name r.module.name repo moduleName opt) with
       | some o => .ok o.value
       | none => .error (.blob (unknownOptionMsg
           (modQualify r.repository.name r.module.name repo moduleName opt)))) := by
  unfold Module.OptionNameResolver.getItem
  rw [h]

theorem depends_cons {V : Type} (m : Module V) (d : Str) (rest : List Str) :
    Module.depends m (d :: rest) =
      (match verify_module_name d with
       | some e => (m, some e)
       | none => Module.depends { m with dependencies := m.dependencies ++ [d] } rest) := rfl

theorem depends_all_good {V : Type} (tl : List Str) (gs : List Str) :
    ∀ (m : Module V), (∀ s ∈ gs, s.count ':' = 1) →
      Module.depends m (gs ++ tl) =
        Module.depends { m with dependencies := m.dependencies ++ gs } tl := by
  induction gs with
  | nil =>
    intro m hg
    rw [List.nil_append, List.append_nil]
  | cons g gs ih =>
    intro m hg
    have hv : verify_module_name g = none := by
      unfold verify_module_name
      rw [if_neg]
      rw [length_splitColon]
      have := hg g (by simp)
      omega
    rw [List.cons_append, depends_cons, hv]
    rw [ih _ (fun s hs => hg s (List.mem_cons_of_mem g hs))]
    have hassoc : (m.dependencies ++ [g]) ++ gs = m.dependencies ++ g :: gs := by simp
    rw [hassoc]

/-! ### The claims -/

/-- C1 (amended): for every key whose split on ':' yields a segment count other
than 2, the repository-scoped resolver's lookup fails with the generic
configuration error (`BlobException`), not the dedicated format specialization,
and its message is the fixed literal whose `%s` placeholder was never formatted
with the key. -/
theorem C1_repo_format_generic {V : Type} (r : Repository.OptionNameResolver V)
    (key : Str) (h : (splitColon key).length ≠ 2) :
    Repository.OptionNameResolver.getItem r key = .error (.blob repoColonMsg) ∧
    Err.isFormat (.blob repoColonMsg) = false := by
  refine ⟨?_, rfl⟩
  unfold Repository.OptionNameResolver.getItem
  rcases hs : splitColon key with _ | ⟨a, _ | ⟨b, _ | ⟨c, t⟩⟩⟩
  · exact rfl
  · exact rfl
  · rw [hs] at h; simp at h
  · exact rfl

/-- C1 counterexample: at the concrete key "xyz" (zero colons) the repository
resolver raises the generic `BlobException`, not the dedicated
`OptionFormatException`, and its message does not contain the key text. -/
theorem C1_counterexample :
    Repository.OptionNameResolver.getItem sampleRepoResolver (("xyz").data) =
      .error (.blob repoColonMsg) ∧
    Err.isFormat (.blob repoColonMsg) = false ∧
    containsStr (Err.message (.blob repoColonMsg)) (("xyz").data) = false := by
  refine ⟨?_, rfl, by decide⟩
  exact (C1_repo_format_generic sampleRepoResolver (("xyz").data) (by decide)).1

/-- C1 witness: the amended theorem applied at the key "xyz". -/
theorem C1_witness :
    Repository.OptionNameResolver.getItem sampleRepoResolver (("xyz").data) =
      .error (.blob repoColonMsg) ∧
    Err.isFormat (.blob repoColonMsg) = false :=
  C1_repo_format_generic sampleRepoResolver (("xyz").data) (by decide)

/-- C4: `verify_module_name` raises the malformed-name generic error exactly
when the colon count differs from 1; with exactly one colon it succeeds and
`depends` appends the name unchanged after all existing entries, with no
de-duplication. -/
theorem C4_verify_and_depends {V : Type} (m : Module V) (bad good : Str)
    (hbad : bad.count ':' ≠ 1) (hgood : good.count ':' = 1) :
    verify_module_name bad = some (.blob (malformedModuleNameMsg bad)) ∧
    verify_module_name good = none ∧
    Module.depends m [good] =
      ({ m with dependencies := m.dependencies ++ [good] }, none) := by
  have hvb : verify_module_name bad = some (.blob (malformedModuleNameMsg bad)) := by
    unfold verify_module_name
    rw [if_pos]
    rw [length_splitColon]
    omega
  have hvg : verify_module_name good = none := by
    unfold verify_module_name
    rw [if_neg]
    rw [length_splitColon]
    omega
  refine ⟨hvb, hvg, ?_⟩
  rw [depends_cons, hvg]
  exact rfl

/-- C4 witness: the theorem applied at the bad name "abc" and the good name "a:b". -/
theorem C4_witness :
    verify_module_name (("abc").data) =
      some (.blob (malformedModuleNameMsg (("abc").data))) ∧
    verify_module_name (("a:b").data) = none ∧
    Module.depends sampleModule [("a:b").data] =
      ({ sampleModule with
          dependencies := sampleModule.dependencies ++ [("a:b").data] }, none) :=
  C4_verify_and_depends sampleModule (("abc").data) (("a:b").data) (by decide) (by decide)

/-- C5: for every key whose split on ':' yields a segment count other than 2 or
3, the module-scoped resolver's lookup fails with the dedicated
`OptionFormatException`, whose message names the offending key. -/
theorem C5_module_format_error {V : Type} (r : Module.OptionNameResolver V)
    (key : Str) (h2 : (splitColon key).length ≠ 2) (h3 : (splitColon key).length ≠ 3) :
    Module.OptionNameResolver.getItem r key = .error (.optionFormat key) ∧
    containsStr (Err.message (.optionFormat key)) key = true := by
  constructor
  · unfold Module.OptionNameResolver.getItem
    rcases hs : splitColon key with _ | ⟨a, _ | ⟨b, _ | ⟨c, _ | ⟨e, t⟩⟩⟩⟩
    · exact rfl
    · exact rfl
    · rw [hs] at h2; simp at h2
    · rw [hs] at h3; simp at h3
    · exact rfl
  · show containsStr (optionFormatMsg key) key = true
    unfold optionFormatMsg
    rw [List.append_assoc]
    exact containsStr_middle _ _ _

/-- C5 witness: the theorem applied at the key "a:b:c:d" (three colons). -/
theorem C5_witness :
    Module.OptionNameResolver.getItem sampleModuleResolver (("a:b:c:d").data) =
      .error (.optionFormat (("a:b:c:d").data)) ∧
    containsStr (Err.message (.optionFormat (("a:b:c:d").data))) (("a:b:c:d").data) = true :=
  C5_module_format_error sampleModuleResolver (("a:b:c:d").data) (by decide) (by decide)

/-- C2: empty segments default to the resolver's own context. On a repository
resolver owned by `R`, `lookup(":opt")` equals `lookup("R:opt")` and returns
the value of the Option stored under `"R:opt"`; on a module resolver owned by
`R`, `M`, `lookup("::opt")` equals `lookup("R:M:opt")` and returns the value of
the Option stored under `"R:M:opt"`. -/
theorem C2_empty_segment_defaults {V : Type}
    (rr : Repository.OptionNameResolver V) (opt : Str) (o : LbOption V)
    (hR : ':' ∉ rr.repository.name) (hopt : ':' ∉ opt)
    (hfound : dget rr.options (rr.repository.name ++ ':' :: opt) = some o)
    (mr : Module.OptionNameResolver V) (opt2 : Str) (o2 : LbOption V)
    (hR2 : ':' ∉ mr.repository.name) (hM2 : ':' ∉ mr.module.name) (hopt2 : ':' ∉ opt2)
    (hfound2 : dget mr.module_options
      (mr.repository.name ++ ':' :: (mr.module.name ++ ':' :: opt2)) = some o2) :
    (Repository.OptionNameResolver.getItem rr (':' :: opt) =
        Repository.OptionNameResolver.getItem rr (rr.repository.name ++ ':' :: opt) ∧
      Repository.OptionNameResolver.getItem rr (':' :: opt) = .ok o.value) ∧
    (Module.OptionNameResolver.getItem mr (':' :: ':' :: opt2) =
        Module.OptionNameResolver.getItem mr
          (mr.repository.name ++ ':' :: (mr.module.name ++ ':' :: opt2)) ∧
      Module.OptionNameResolver.getItem mr (':' :: ':' :: opt2) = .ok o2.value) := by
  have hsplit1 : splitColon (':' :: opt) = [[], opt] := by
    have h0 : splitColon (':' :: opt) = [] :: splitColon opt := by
      rw [splitColon, if_pos rfl]
    rw [h0, splitColon_no_colon opt hopt]
  have hsplit2 : splitColon (rr.repository.name ++ ':' :: opt) =
      [rr.repository.name, opt] := by
    rw [splitColon_append _ _ hR, splitColon_no_colon opt hopt]
  have hsplit3 : splitColon (':' :: ':' :: opt2) = [[], [], opt2] := by
    have h0 : splitColon (':' :: ':' :: opt2) = [] :: splitColon (':' :: opt2) := by
      rw [splitColon, if_pos rfl]
    have h1 : splitColon (':' :: opt2) = [] :: splitColon opt2 := by
      rw [splitColon, if_pos rfl]
    rw [h0, h1, splitColon_no_colon opt2 hopt2]
  have hsplit4 : splitColon (mr.repository.name ++ ':' :: (mr.module.name ++ ':' :: opt2)) =
      [mr.repository.name, mr.module.name, opt2] := by
    rw [splitColon_append _ _ hR2, splitColon_append _ _ hM2,
      splitColon_no_colon opt2 hopt2]
  have hq2 : repoQualify rr.repository.name rr.repository.name opt
      (rr.repository.name ++ ':' :: opt) = rr.repository.name ++ ':' :: opt := by
    unfold repoQualify
    split <;> rfl
  have hq1 : repoQualify rr.repository.name [] opt (':' :: opt) =
      rr.repository.name ++ ':' :: opt := by
    unfold repoQualify
    rw [if_pos rfl]
  have hq3 : modQualify mr.repository.name mr.module.name [] [] opt2 =
      mr.repository.name ++ ':' :: (mr.module.name ++ ':' :: opt2) := by
    unfold modQualify
    rw [if_pos rfl, if_pos rfl]
  have hq4 : modQualify mr.repository.name mr.module.name
      mr.repository.name mr.module.name opt2 =
      mr.repository.name ++ ':' :: (mr.module.name ++ ':' :: opt2) := by
    unfold modQualify
    split <;> split <;> rfl
  constructor
  · rw [repo_getItem_two rr _ _ _ hsplit1, repo_getItem_two rr _ _ _ hsplit2,
      hq1, hq2, hfound]
    exact ⟨rfl, rfl⟩
  · rw [mod_getItem_three mr _ _ _ _ hsplit3, mod_getItem_three mr _ _ _ _ hsplit4,
      hq3, hq4, hfound2]
    exact ⟨rfl, rfl⟩

/-- C2 witness: on the sample resolvers, ":arch" resolves like "core:arch"
(value 1) and "::baudrate" like "core:uart:baudrate" (value 9600). -/
theorem C2_witness :
    (Repository.OptionNameResolver.getItem sampleRepoResolver ((":arch").data) =
        Repository.OptionNameResolver.getItem sampleRepoResolver (("core:arch").data) ∧
      Repository.OptionNameResolver.getItem sampleRepoResolver ((":arch").data) = .ok 1) ∧
    (Module.OptionNameResolver.getItem sampleModuleResolver (("::baudrate").data) =
        Module.OptionNameResolver.getItem sampleModuleResolver
          (("core:uart:baudrate").data) ∧
      Module.OptionNameResolver.getItem sampleModuleResolver (("::baudrate").data) =
        .ok 9600) :=
  C2_empty_segment_defaults sampleRepoResolver (("arch").data)
    (LbOption.make .generic (("arch").data) [] 1) (by decide) (by decide) (by decide)
    sampleModuleResolver (("baudrate").data)
    (LbOption.make .generic (("baudrate").data) [] 9600) (by decide) (by decide)
    (by decide) (by decide)

/-- C6: a syntactically well-formed key (2 segments on the repository resolver,
2 or 3 on the module resolver) whose fully-qualified form is absent from the
addressed option map fails with the generic "Unknown option name" error, not
the format error. -/
theorem C6_unknown_option {V : Type}
    (rr : Repository.OptionNameResolver V) (mr : Module.OptionNameResolver V)
    (k1 r1 o1 k2 r2 o2 k3 r3 m3 o3 : Str)
    (h1 : splitColon k1 = [r1, o1])
    (h1m : dget rr.options (repoQualify rr.repository.name r1 o1 k1) = none)
    (h2 : splitColon k2 = [r2, o2])
    (h2m : dget mr.repo_options (repoQualify mr.repository.name r2 o2 k2) = none)
    (h3 : splitColon k3 = [r3, m3, o3])
    (h3m : dget mr.module_options
      (modQualify mr.repository.name mr.module.name r3 m3 o3) = none) :
    Repository.OptionNameResolver.getItem rr k1 =
      .error (.blob (unknownOptionMsg (repoQualify rr.repository.name r1 o1 k1))) ∧
    Module.OptionNameResolver.getItem mr k2 =
      .error (.blob (unknownOptionMsg (repoQualify mr.repository.name r2 o2 k2))) ∧
    Module.OptionNameResolver.getItem mr k3 =
      .error (.blob (unknownOptionMsg
        (modQualify mr.repository.name mr.module.name r3 m3 o3))) := by
  refine ⟨?_, ?_, ?_⟩
  · rw [repo_getItem_two rr _ _ _ h1, h1m]
  · rw [mod_getItem_two mr _ _ _ h2, h2m]
  · rw [mod_getItem_three mr _ _ _ _ h3, h3m]

/-- C6 witness: "core:missing", ":missing" and "core:uart:missing" are absent
from the sample maps and each raises the unknown-option error. -/
theorem C6_witness :
    Repository.OptionNameResolver.getItem sampleRepoResolver (("core:missing").data) =
      .error (.blob (unknownOptionMsg (("core:missing").data))) ∧
    Module.OptionNameResolver.getItem sampleModuleResolver ((":missing").data) =
      .error (.blob (unknownOptionMsg (("core:missing").data))) ∧
    Module.OptionNameResolver.getItem sampleModuleResolver (("core:uart:missing").data) =
      .error (.blob (unknownOptionMsg (("core:uart:missing").data))) :=
  C6_unknown_option sampleRepoResolver sampleModuleResolver
    (("core:missing").data) (("core").data) (("missing").data)
    ((":missing").data) [] (("missing").data)
    (("core:uart:missing").data) (("core").data) (("uart").data) (("missing").data)
    (by decide) (by decide) (by decide) (by decide) (by decide) (by decide)

/-- C7: `size()` of every module resolver is the sum of the repository and
module option map sizes (no union is taken); in particular a resolver with 3
repository entries and 2 module entries has size 5 even when a key occurs in
both maps. -/
theorem C7_size_is_sum {V : Type} (r r2 : Module.OptionNameResolver V)
    (h3 : r2.repo_options.length = 3) (h2 : r2.module_options.length = 2) :
    Module.OptionNameResolver.size r =
      r.repo_options.length + r.module_options.length ∧
    Module.OptionNameResolver.size r2 = 5 := by
  constructor
  · unfold Module.OptionNameResolver.size
    exact Nat.add_comm _ _
  · unfold Module.OptionNameResolver.size
    omega

/-- C7 witness: the resolver with maps of sizes 3 and 2 sharing the key "a" has
size 5 and satisfies the sum law. -/
theorem C7_witness :
    Module.OptionNameResolver.size mixedModuleResolver =
      mixedModuleResolver.repo_options.length +
        mixedModuleResolver.module_options.length ∧
    Module.OptionNameResolver.size mixedModuleResolver = 5 :=
  C7_size_is_sum mixedModuleResolver mixedModuleResolver (by decide) (by decide)

/-- C8: `describe()` of a module resolver merges by copying the module map and
overlaying the repository map, so a key present in the repository map resolves
to the repository entry and any other key to its module entry; the underlying
maps are values and stay unchanged. -/
theorem C8_describe_overlay {V : Type} (r : Module.OptionNameResolver V)
    (k1 k2 : Str) (v : LbOption V)
    (hnd : nodupKeys r.repo_options = true)
    (h1 : dget r.repo_options k1 = some v)
    (h2 : dget r.repo_options k2 = none) :
    dget (Module.OptionNameResolver.describe r) k1 = some v ∧
    dget (Module.OptionNameResolver.describe r) k2 = dget r.module_options k2 := by
  unfold Module.OptionNameResolver.describe
  constructor
  · rw [dget_dupdate _ _ _ hnd, h1]
  · rw [dget_dupdate _ _ _ hnd, h2]

/-- C8 witness: on the mixed resolver the shared key "a" displays the
repository entry (value 1, not the module entry's 10) and "d" falls back to the
module map. -/
theorem C8_witness :
    dget (Module.OptionNameResolver.describe mixedModuleResolver) (("a").data) =
      some (LbOption.make .generic (("a").data) [] 1) ∧
    dget (Module.OptionNameResolver.describe mixedModuleResolver) (("d").data) =
      dget mixedModuleResolver.module_options (("d").data) :=
  C8_describe_overlay mixedModuleResolver (("a").data) (("d").data)
    (LbOption.make .generic (("a").data) [] 1) (by decide) (by decide) (by decide)

/-- C9: `depends` on a sequence is not atomic. If every element of `gs` is
well-formed and `b` is the first malformed element, `depends` raises the
malformed-name error with all of `gs` already appended to the dependencies
list — the list is left changed despite the failure. -/
theorem C9_depends_not_atomic {V : Type} (m : Module V) (gs : List Str)
    (b : Str) (rest : List Str)
    (hg : ∀ s ∈ gs, s.count ':' = 1) (hb : b.count ':' ≠ 1) :
    Module.depends m (gs ++ b :: rest) =
      ({ m with dependencies := m.dependencies ++ gs },
        some (.blob (malformedModuleNameMsg b))) := by
  have hv : verify_module_name b = some (.blob (malformedModuleNameMsg b)) := by
    unfold verify_module_name
    rw [if_pos]
    rw [length_splitColon]
    omega
  rw [depends_all_good (b :: rest) gs m hg, depends_cons, hv]

/-- C9 witness: depends ["a:b", "bad", "x:y"] appends "a:b", then fails on
"bad"; the dependencies list keeps the partial append. -/
theorem C9_witness :
    Module.depends sampleModule [("a:b").data, ("bad").data, ("x:y").data] =
      ({ sampleModule with
          dependencies := sampleModule.dependencies ++ [("a:b").data] },
        some (.blob (malformedModuleNameMsg (("bad").data)))) :=
  C9_depends_not_atomic sampleModule [("a:b").data] (("bad").data) [("x:y").data]
    (by decide) (by decide)

/-- C10: `verify_module_name` accepts empty segments: every string with exactly
one colon — written `a ++ ':' :: b` with colon-free `a` and `b`, either or both
possibly empty — passes, in particular ":", "repo:" and ":mod", and
`depends(":")` succeeds and appends ":" to the dependencies list. -/
theorem C10_empty_segments_accepted {V : Type} (m : Module V) (a b : Str)
    (ha : ':' ∉ a) (hb : ':' ∉ b) :
    verify_module_name (a ++ ':' :: b) = none ∧
    verify_module_name ((":").data) = none ∧
    verify_module_name (("repo:").data) = none ∧
    verify_module_name ((":mod").data) = none ∧
    Module.depends m [(":").data] =
      ({ m with dependencies := m.dependencies ++ [(":").data] }, none) := by
  have hgen : verify_module_name (a ++ ':' :: b) = none := by
    unfold verify_module_name
    rw [splitColon_append a b ha, splitColon_no_colon b hb]
    rfl
  have hv : verify_module_name ((":").data) = none := by decide
  refine ⟨hgen, hv, by decide, by decide, ?_⟩
  rw [depends_cons, hv]
  exact rfl

/-- C10 witness: the theorem applied with the one-colon string "xyz:" (empty
module part) on the sample module. -/
theorem C10_witness :
    verify_module_name ((("xyz").data) ++ ':' :: []) = none ∧
    verify_module_name ((":").data) = none ∧
    verify_module_name (("repo:").data) = none ∧
    verify_module_name ((":mod").data) = none ∧
    Module.depends sampleModule [(":").data] =
      ({ sampleModule with
          dependencies := sampleModule.dependencies ++ [(":").data] }, none) :=
  C10_empty_segments_accepted sampleModule (("xyz").data) [] (by decide) (by decide)

/-- C3: on both scopes, a successful `add_option(n, d)` followed by a second
`add_option` (or `add_boolean_option` / `add_numeric_option`) with the same
name raises the duplicate-option error, the failing call returns the scope
unchanged, and the first Option — value included — is still stored under `n`. -/
theorem C3_duplicate_option {V : Type} (mo : Module V) (re : Repository V)
    (n d d2 : Str) (dv dv2 : V)
    (hm : hasKey mo.options n = false) (hr : hasKey re.options n = false) :
    (Module.add_option mo n d dv).2 = none ∧
    Module.add_option (Module.add_option mo n d dv).1 n d2 dv2 =
      ((Module.add_option mo n d dv).1, some (.blob (duplicateOptionMsg n))) ∧
    Module.add_boolean_option (Module.add_option mo n d dv).1 n d2 dv2 =
      ((Module.add_option mo n d dv).1, some (.blob (duplicateOptionMsg n))) ∧
    Module.add_numeric_option (Module.add_option mo n d dv).1 n d2 dv2 =
      ((Module.add_option mo n d dv).1, some (.blob (duplicateOptionMsg n))) ∧
    dget (Module.add_option mo n d dv).1.options n =
      some (LbOption.make .generic n d dv) ∧
    (Repository.add_option re n d dv).2 = none ∧
    Repository.add_option (Repository.add_option re n d dv).1 n d2 dv2 =
      ((Repository.add_option re n d dv).1, some (.blob (duplicateOptionMsg n))) ∧
    Repository.add_boolean_option (Repository.add_option re n d dv).1 n d2 dv2 =
      ((Repository.add_option re n d dv).1, some (.blob (duplicateOptionMsg n))) ∧
    Repository.add_numeric_option (Repository.add_option re n d dv).1 n d2 dv2 =
      ((Repository.add_option re n d dv).1, some (.blob (duplicateOptionMsg n))) ∧
    dget (Repository.add_option re n d dv).1.options n =
      some (LbOption.make .generic n d dv) := by
  have hmo : Module.checkForDuplicates mo n = none := by
    simp [Module.checkForDuplicates, hm]
  have hre : Repository.checkForDuplicates re n = none := by
    simp [Repository.checkForDuplicates, hr]
  have key1 : Module.add_option mo n d dv =
      ({ mo with options := dinsert mo.options n (LbOption.make .generic n d dv) },
        none) := by
    simp [Module.add_option, hmo]
  have key2 : Repository.add_option re n d dv =
      ({ re with options := dinsert re.options n (LbOption.make .generic n d dv) },
        none) := by
    simp [Repository.add_option, hre]
  rw [key1, key2]
  simp [Module.add_option, Module.add_boolean_option, Module.add_numeric_option,
    Module.checkForDuplicates, Repository.add_option, Repository.add_boolean_option,
    Repository.add_numeric_option, Repository.checkForDuplicates,
    hasKey_dinsert, dget_dinsert]

/-- C3 witness: the theorem applied with name "n" on the sample module and
repository (both without an option "n"). -/
theorem C3_witness :
    (Module.add_option sampleModule (("n").data) (("d").data) 1).2 = none ∧
    Module.add_option (Module.add_option sampleModule (("n").data) (("d").data) 1).1
        (("n").data) (("d2").data) 2 =
      ((Module.add_option sampleModule (("n").data) (("d").data) 1).1,
        some (.blob (duplicateOptionMsg (("n").data)))) ∧
    Module.add_boolean_option
        (Module.add_option sampleModule (("n").data) (("d").data) 1).1
        (("n").data) (("d2").data) 2 =
      ((Module.add_option sampleModule (("n").data) (("d").data) 1).1,
        some (.blob (duplicateOptionMsg (("n").data)))) ∧
    Module.add_numeric_option
        (Module.add_option sampleModule (("n").data) (("d").data) 1).1
        (("n").data) (("d2").data) 2 =
      ((Module.add_option sampleModule (("n").data) (("d").data) 1).1,
        some (.blob (duplicateOptionMsg (("n").data)))) ∧
    dget (Module.add_option sampleModule (("n").data) (("d").data) 1).1.options
        (("n").data) =
      some (LbOption.make .generic (("n").data) (("d").data) 1) ∧
    (Repository.add_option sampleRepository (("n").data) (("d").data) 1).2 = none ∧
    Repository.add_option
        (Repository.add_option sampleRepository (("n").data) (("d").data) 1).1
        (("n").data) (("d2").data) 2 =
      ((Repository.add_option sampleRepository (("n").data) (("d").data) 1).1,
        some (.blob (duplicateOptionMsg (("n").data)))) ∧
    Repository.add_boolean_option
        (Repository.add_option sampleRepository (("n").data) (("d").data) 1).1
        (("n").data) (("d2").data) 2 =
      ((Repository.add_option sampleRepository (("n").data) (("d").data) 1).1,
        some (.blob (duplicateOptionMsg (("n").data)))) ∧
    Repository.add_numeric_option
        (Repository.add_option sampleRepository (("n").data) (("d").data) 1).1
        (("n").data) (("d2").data) 2 =
      ((Repository.add_option sampleRepository (("n").data) (("d").data) 1).1,
        some (.blob (duplicateOptionMsg (("n").data)))) ∧
    dget (Repository.add_option sampleRepository (("n").data) (("d").data) 1).1.options
        (("n").data) =
      some (LbOption.make .generic (("n").data) (("d").data) 1) :=
  C3_duplicate_option sampleModule sampleRepository (("n").data) (("d").data)
    (("d2").data) 1 2 (by decide) (by decide)

end Lbuild
